import Mathlib

/-
Shallow embedding of src/src/event-timer.c (c-event-machine).

Pointers are modelled as natural numbers, with 0 standing for NULL.
Outcomes of kernel and reactor calls (timerfd_create, timerfd_settime,
read, close, event_machine_add, event_machine_delete) are supplied by an
environment record `Env`; observable kernel and reactor state (errno, the
set of open file descriptors, the set of descriptors registered with the
reactor, the armed interval of each timerfd, and the trace of
timerfd_settime invocations) is threaded through a `World` record.
C `assert` statements are modelled by the `Outcome.assertFailed` result.
-/

/-- Pointers are addresses; 0 is NULL. -/
abbrev Ptr := Nat

/-- errno value EBADF (bad file descriptor), set by kernel calls given an
invalid file descriptor. -/
def EBADF : Int := 9

/-- errno value EAGAIN (resource temporarily unavailable / would block). -/
def EAGAIN : Int := 11

/-- The EPOLLIN readable-interest bit used when registering the timer
descriptor. -/
def EPOLLIN : Nat := 1

/-- Status codes from event-machine/result-internal.h, as used by
event-timer.c.  Reactor-side failures other than the listed ones are
represented by `EM_ERROR_OTHER`. -/
inductive EmResult where
  | EM_SUCCESS
  | EM_ERROR_NULL
  | EM_ERROR_TIMER_NULL
  | EM_ERROR_CALLBACK_NULL
  | EM_ERROR_DESCRIPTOR_NULL
  | EM_ERROR_BADFD
  | EM_ERROR_TIMERFD_SETTIME
  | EM_ERROR_CLOSE
  | EM_ERROR_OTHER (n : Nat)
  deriving DecidableEq, Repr

open EmResult

/-- struct timespec. -/
structure Timespec where
  tv_sec : Int
  tv_nsec : Int
  deriving DecidableEq, Repr

/-- struct itimerspec. -/
structure Itimerspec where
  it_interval : Timespec
  it_value : Timespec
  deriving DecidableEq, Repr

/-- The all-zero itimerspec `{{0, 0}, {0, 0}}` built by event_timer_stop. -/
def zero_itimerspec : Itimerspec := ⟨⟨0, 0⟩, ⟨0, 0⟩⟩

/-- Event_descriptor as used through the TIMER_ED accessor macros: a file
descriptor, an epoll interest mask, an opaque data pointer and a handler
function pointer. -/
structure Event_descriptor where
  fd : Int
  events : Nat
  data : Ptr
  handler : Ptr
  deriving DecidableEq, Repr

/-- Event_timer as used through the TIMER_* accessor macros: the owning
event machine, the embedded Event_descriptor, the opaque user data pointer
and the user callback function pointer. -/
structure Event_timer where
  event_machine : Ptr
  event_descriptor : Event_descriptor
  data : Ptr
  callback : Ptr
  deriving DecidableEq, Repr

/-- Address of the internal_timeout_handler function, used as the value
stored in the descriptor's handler field (any fixed nonzero address). -/
def internal_timeout_handler_addr : Ptr := 1

/-- Observable kernel and reactor state threaded through each call. -/
structure World where
  /-- The C errno variable. -/
  errno : Int
  /-- File descriptors currently open (kernel timer resources). -/
  openFds : List Int
  /-- File descriptors currently registered with the reactor. -/
  registered : List Int
  /-- Current armed interval of each timerfd (association list). -/
  armed : List (Int × Itimerspec)
  /-- Trace of timerfd_settime invocations, most recent first. -/
  settimeCalls : List (Int × Itimerspec)
  deriving DecidableEq, Repr

/-- Environment: outcomes of the fallible kernel and reactor calls.
`tfd_create` yields a fresh fd or an errno; `em_add` / `em_delete` are the
statuses returned by the reactor (with the errno each leaves behind on
failure); `close_fd` and `settime` give the per-fd outcome of close(2) and
timerfd_settime(2) on a valid descriptor. -/
structure Env where
  tfd_create : Except Int Int
  em_add : EmResult
  em_add_errno : Int
  em_delete : EmResult
  em_delete_errno : Int
  close_fd : Int → Except Int Unit
  settime : Int → Itimerspec → Except Int Unit

/-- Result carrier distinguishing a C `assert` failure (process abort)
from a normal return. -/
inductive Outcome (α : Type) where
  | ok (a : α)
  | assertFailed
  deriving DecidableEq, Repr

/-- Model of timerfd_settime(fd, 0, spec, NULL): fails with EBADF on an
invalid descriptor; otherwise the environment decides.  The invocation is
recorded in the trace either way, and a successful call updates the armed
interval. -/
def timerfd_settime_sys (env : Env) (w : World) (fd : Int) (spec : Itimerspec) :
    Int × World :=
  let w0 := { w with settimeCalls := (fd, spec) :: w.settimeCalls }
  if fd < 0 then
    (-1, { w0 with errno := EBADF })
  else
    match env.settime fd spec with
    | Except.ok _ =>
        (0, { w0 with armed := (fd, spec) :: w0.armed.filter (fun p => p.1 ≠ fd) })
    | Except.error e => (-1, { w0 with errno := e })

/-- Model of close(fd): fails with EBADF on an invalid descriptor.  On a valid
descriptor the kernel releases the resource even when close reports an
error (Linux semantics), so the fd leaves both the open set and the
reactor's interest set (epoll drops closed descriptors) in every case;
the environment decides only the return value and errno. -/
def close_sys (env : Env) (w : World) (fd : Int) : Int × World :=
  if fd < 0 then
    (-1, { w with errno := EBADF })
  else
    let w0 := { w with openFds := w.openFds.filter (fun x => x ≠ fd),
                       registered := w.registered.filter (fun x => x ≠ fd) }
    match env.close_fd fd with
    | Except.ok _ => (0, w0)
    | Except.error e => (-1, { w0 with errno := e })

/-- Modelled from the spec: event_machine_add (the reactor's `register`
operation) is not part of src/; per §6 it rejects a null reactor and a
null descriptor distinctly, otherwise the environment decides the status;
on success the descriptor's fd joins the readiness set, and a failed add
leaves the fd unregistered with errno set by the reactor. -/
def event_machine_add (env : Env) (w : World) (em : Ptr) (fd : Int) (descrAddr : Ptr) :
    EmResult × World :=
  if em = 0 then (EM_ERROR_NULL, w)
  else if descrAddr = 0 then (EM_ERROR_DESCRIPTOR_NULL, w)
  else if env.em_add = EM_SUCCESS then
    (EM_SUCCESS, { w with registered := fd :: w.registered })
  else (env.em_add, { w with errno := env.em_add_errno })

/-- Modelled from the spec: event_machine_delete (the reactor's
`unregister` operation) is not part of src/; per §6 and the caller's
assert comments it returns EM_ERROR_NULL for a null reactor, otherwise
the environment decides the status; on success the fd leaves the
readiness set, and a failed delete leaves registration intact with errno
set by the reactor. -/
def event_machine_delete (env : Env) (w : World) (em : Ptr) (fd : Int) :
    EmResult × World :=
  if em = 0 then (EM_ERROR_NULL, w)
  else if env.em_delete = EM_SUCCESS then
    (EM_SUCCESS, { w with registered := w.registered.filter (fun x => x ≠ fd) })
  else (env.em_delete, { w with errno := env.em_delete_errno })

/-- The shred(timer) helper: memset the whole structure to zero, then set
both fd views (TIMER_FD and TIMER_ED(timer).fd name the same field) to -1. -/
def shred (_timer : Event_timer) : Event_timer :=
  { event_machine := 0
    event_descriptor := { fd := -1, events := 0, data := 0, handler := 0 }
    data := 0
    callback := 0 }

/-- Result of the read(fd, &number_of_timeouts, 8) call in the dispatch
handler: either `bytes n v` (read returned n bytes, the uint64 buffer
holding v when n = 8, errno untouched) or `fail e` (read returned -1 and
set errno to e; e = EAGAIN is the would-block case). -/
inductive ReadResult where
  | bytes (n : Int) (v : Nat)
  | fail (e : Int)
  deriving DecidableEq, Repr

/-- The dispatch handler internal_timeout_handler(em, events, fd, data),
invoked by the reactor when the timerfd is readable: asserts em non-null
and fd valid, reads the elapsed-interval counter, returns silently when
the read did not yield 8 bytes while errno is EAGAIN, asserts an 8-byte
read otherwise, then invokes the user callback once per elapsed interval,
each invocation passing the Event_timer recovered from the opaque data
pointer and that timer's stored user data.  The returned list records the
callback invocations in order as (timer passed, user data passed). -/
def internal_timeout_handler (w : World) (em : Ptr) (_events : Nat) (fd : Int)
    (rd : ReadResult) (timer : Event_timer) :
    Outcome (World × List (Event_timer × Ptr)) :=
  if em = 0 then Outcome.assertFailed
  else if fd < 0 then Outcome.assertFailed
  else
    let (readed, w1) : Int × World :=
      match rd with
      | ReadResult.bytes n _ => (n, w)
      | ReadResult.fail e => (-1, { w with errno := e })
    if readed ≠ 8 ∧ w1.errno = EAGAIN then
      Outcome.ok (w1, [])
    else if readed = 8 then
      match rd with
      | ReadResult.bytes _ v =>
          Outcome.ok (w1, List.replicate v (timer, timer.data))
      | ReadResult.fail _ => Outcome.assertFailed
    else
      Outcome.assertFailed

/-- The library entry event_timer_create(event_machine, timer, callback,
data).  The timer
argument is the address `timerAddr` of the caller's storage whose current
content is `t0`; the call returns the status, the new world, and the final
content of that storage (t0 itself when timerAddr = 0, since the C code
then never dereferences the pointer). -/
def event_timer_create (env : Env) (w : World) (em : Ptr) (timerAddr : Ptr)
    (t0 : Event_timer) (callback : Ptr) (data : Ptr) :
    Outcome (EmResult × World × Event_timer) :=
  if em = 0 then Outcome.ok (EM_ERROR_NULL, w, t0)
  else if timerAddr = 0 then Outcome.ok (EM_ERROR_TIMER_NULL, w, t0)
  else if callback = 0 then Outcome.ok (EM_ERROR_CALLBACK_NULL, w, t0)
  else
    let t1 := { t0 with event_machine := em, data := data, callback := callback }
    match env.tfd_create with
    | Except.error e => Outcome.ok (EM_ERROR_BADFD, { w with errno := e }, t1)
    | Except.ok fd =>
      let w1 := { w with openFds := fd :: w.openFds }
      let t2 := { t1 with event_descriptor :=
          { fd := fd, events := EPOLLIN, data := timerAddr,
            handler := internal_timeout_handler_addr } }
      let (ret, w2) := event_machine_add env w1 em fd timerAddr
      if ret ≠ EM_SUCCESS then
        if ret = EM_ERROR_NULL then Outcome.assertFailed
        else if ret = EM_ERROR_DESCRIPTOR_NULL then Outcome.assertFailed
        else
          let saved_errno := w2.errno
          let (_, w3) := close_sys env w2 fd
          let t3 := shred t2
          Outcome.ok (ret, { w3 with errno := saved_errno }, t3)
      else
        Outcome.ok (ret, w2, t2)

/-- The library entry event_timer_start(timer, msec): null check, then arm
the timerfd with
it_interval = it_value = { msec / 1000 seconds, (msec % 1000) * 1000
nanoseconds } (C int division and remainder truncate toward zero). -/
def event_timer_start (env : Env) (w : World) (timer : Option Event_timer)
    (msec : Int) : EmResult × World × Option Event_timer :=
  match timer with
  | none => (EM_ERROR_TIMER_NULL, w, none)
  | some t =>
    let expiration_time : Timespec :=
      { tv_sec := msec.tdiv 1000, tv_nsec := (msec.tmod 1000) * 1000 }
    let expiration : Itimerspec :=
      { it_interval := expiration_time, it_value := expiration_time }
    let (r, w1) := timerfd_settime_sys env w t.event_descriptor.fd expiration
    if r < 0 then (EM_ERROR_TIMERFD_SETTIME, w1, some t)
    else (EM_SUCCESS, w1, some t)

/-- The library entry event_timer_stop(timer): null check, then set the
timerfd interval to the all-zero itimerspec, leaving the structure
untouched. -/
def event_timer_stop (env : Env) (w : World) (timer : Option Event_timer) :
    EmResult × World × Option Event_timer :=
  let expiration : Itimerspec := ⟨⟨0, 0⟩, ⟨0, 0⟩⟩
  match timer with
  | none => (EM_ERROR_TIMER_NULL, w, none)
  | some t =>
    let (r, w1) := timerfd_settime_sys env w t.event_descriptor.fd expiration
    if r < 0 then (EM_ERROR_TIMERFD_SETTIME, w1, some t)
    else (EM_SUCCESS, w1, some t)

/-- The library entry event_timer_destroy(timer): null check;
event_machine_delete; on
delete failure assert the status is neither EM_ERROR_NULL nor
EM_ERROR_DESCRIPTOR_NULL, save errno, close the fd (result ignored),
restore errno and return the delete status with the structure unwiped;
on delete success close the fd, returning EM_ERROR_CLOSE (unwiped) if the
close fails, else shred the structure and return EM_SUCCESS. -/
def event_timer_destroy (env : Env) (w : World) (timer : Option Event_timer) :
    Outcome (EmResult × World × Option Event_timer) :=
  match timer with
  | none => Outcome.ok (EM_ERROR_TIMER_NULL, w, none)
  | some t =>
    let (ret, w1) := event_machine_delete env w t.event_machine t.event_descriptor.fd
    if ret ≠ EM_SUCCESS then
      if ret = EM_ERROR_NULL then Outcome.assertFailed
      else if ret = EM_ERROR_DESCRIPTOR_NULL then Outcome.assertFailed
      else
        let saved_errno := w1.errno
        let (_, w2) := close_sys env w1 t.event_descriptor.fd
        Outcome.ok (ret, { w2 with errno := saved_errno }, some t)
    else
      let (c, w2) := close_sys env w1 t.event_descriptor.fd
      if c < 0 then Outcome.ok (EM_ERROR_CLOSE, w2, some t)
      else Outcome.ok (EM_SUCCESS, w2, some (shred t))

/-- All-zero caller storage for a Timer (uninitialized memory). -/
def t_uninit : Event_timer := ⟨0, ⟨0, 0, 0, 0⟩, 0, 0⟩

/-- A sample created timer: event machine at address 3, timerfd 5,
descriptor back-reference at address 4, user data pointer 9, callback
pointer 7. -/
def t_sample : Event_timer :=
  ⟨3, ⟨5, EPOLLIN, 4, internal_timeout_handler_addr⟩, 9, 7⟩

/-- Initial world: errno 0, nothing open, registered or armed. -/
def w0 : World := ⟨0, [], [], [], []⟩

/-- World in which fd 5 is open and registered (as after a successful
event_timer_create with env_ok). -/
def w5 : World := ⟨0, [5], [5], [], []⟩

/-- Environment where every kernel and reactor call succeeds and
timerfd_create yields fd 5. -/
def env_ok : Env :=
  ⟨Except.ok 5, EmResult.EM_SUCCESS, 0, EmResult.EM_SUCCESS, 0,
    fun _ => Except.ok (), fun _ _ => Except.ok ()⟩

/-- Environment where timerfd_create fails with errno 24 (EMFILE). -/
def env_badfd : Env := { env_ok with tfd_create := Except.error 24 }

/-- Environment where event_machine_add fails with a generic reactor
error, leaving errno 13. -/
def env_addfail : Env :=
  { env_ok with em_add := EmResult.EM_ERROR_OTHER 2, em_add_errno := 13 }

/-- Environment where event_machine_delete fails with a generic reactor
error, leaving errno 22. -/
def env_delfail : Env :=
  { env_ok with em_delete := EmResult.EM_ERROR_OTHER 3, em_delete_errno := 22 }

/-- Environment where close fails with errno 5 (EIO). -/
def env_closefail : Env := { env_ok with close_fd := fun _ => Except.error 5 }

theorem filter_ne_of_not_mem (fd : Int) (l : List Int) (h : fd ∉ l) :
    l.filter (fun x => x ≠ fd) = l := by
  induction l with
  | nil => rfl
  | cons a t ih =>
    simp only [List.mem_cons, not_or] at h
    rw [List.filter_cons_of_pos, ih h.2]
    simp only [ne_eq, decide_eq_true_eq]
    exact fun hh => h.1 hh.symm

theorem filter_ne_idem (fd : Int) (l : List Int) :
    (l.filter (fun x => x ≠ fd)).filter (fun x => x ≠ fd) =
      l.filter (fun x => x ≠ fd) := by
  induction l with
  | nil => rfl
  | cons a t ih =>
    by_cases h : a = fd
    · simp [h, ih]
    · simp [List.filter_cons, h, ih]

/-- Claim C10: event_timer_stop is observably equivalent to
event_timer_start with msec = 0 — for every environment, world and timer
argument (null included) the two calls build the identical all-zero
interval specification, make the identical kernel interval-set call on the
same handle, and return exactly the same status, world and timer. -/
theorem c10_stop_eq_start_zero (env : Env) (w : World) (timer : Option Event_timer) :
    event_timer_stop env w timer = event_timer_start env w timer 0 := by
  cases timer with
  | none => rfl
  | some t =>
    have hspec :
        ({ tv_sec := (0 : Int).tdiv 1000, tv_nsec := ((0 : Int).tmod 1000) * 1000 } :
          Timespec) = ⟨0, 0⟩ := by decide
    simp [event_timer_stop, event_timer_start, hspec]

/-- Claim C1: refuted as stated — evaluating the embedded
event_timer_start at msec = 1500 shows the kernel interval-set call is
made with tv_sec = 1 and tv_nsec = 500000 (the code computes
(msec % 1000) * 1000, a microsecond-scale value), whereas a faithful
milliseconds conversion requires tv_nsec = (msec % 1000) * 1000000 =
500000000.  The call succeeds, so the period actually armed is wrong by a
factor of 1000 in its sub-second part. -/
theorem c1_start_conversion_bug :
    (event_timer_start env_ok w0 (some t_sample) 1500).1 = EM_SUCCESS ∧
    (event_timer_start env_ok w0 (some t_sample) 1500).2.1.settimeCalls =
      [(5, ⟨⟨1, 500000⟩, ⟨1, 500000⟩⟩)] ∧
    ((1500 : Int).tmod 1000) * 1000000 = 500000000 ∧
    (500000 : Int) ≠ 500000000 := by
  refine ⟨by decide, by decide, by decide, by decide⟩

/-- Claim C3: refuted as stated — evaluating the embedded
event_timer_destroy on a destroyed timer (structure zeroed with the fd
set to the -1 sentinel, exactly the shred result) hits an assert failure:
the destroyed timer's event_machine field is NULL, so
event_machine_delete returns EM_ERROR_NULL and the code's own
assert(ret != EM_ERROR_NULL) aborts the process instead of returning a
null/invalid-handle error. -/
theorem c3_destroy_destroyed_aborts :
    event_timer_destroy env_ok w0 (some (shred t_sample)) =
      Outcome.assertFailed := by decide

/-- Claim C2: counterexample — with an environment where the kernel timer
resource allocation (timerfd_create) fails, event_timer_create returns the
non-success status EM_ERROR_BADFD, yet the caller's Timer storage keeps
the event_machine, data and callback values written during the failed
call, contradicting the claim that no Timer field retains a value written
during the failed call. -/
theorem c2_fields_retained_counterexample :
    event_timer_create env_badfd w0 3 4 t_uninit 7 9 =
      Outcome.ok (EM_ERROR_BADFD, { w0 with errno := 24 },
        { t_uninit with event_machine := 3, data := 9, callback := 7 }) ∧
    ({ t_uninit with event_machine := 3, data := 9, callback := 7 }).callback ≠
      t_uninit.callback := by
  refine ⟨by decide, by decide⟩

/-- Claim C2 (amended): every failing event_timer_create is atomic with
respect to kernel resources and reactor registration — whatever the
failure (null argument, kernel timer allocation failure, or registration
failure), no kernel resource remains allocated and no registration
remains; however, after a failed allocation of the kernel timer resource
the Timer fields event_machine, data and callback written before the
allocation attempt are retained (only the registration-failure path wipes
the storage).  Hypotheses: any fd the environment hands out is valid and
fresh, and the reactor honors its contract of returning the null-argument
statuses only for null arguments. -/
theorem c2_create_failure_no_kernel_resource
    (env : Env) (w : World) (em timerAddr : Ptr) (t0 : Event_timer) (cb d : Ptr)
    (r : EmResult) (w1 : World) (t1 : Event_timer)
    (hfresh : ∀ fd, env.tfd_create = Except.ok fd →
      0 ≤ fd ∧ fd ∉ w.openFds ∧ fd ∉ w.registered)
    (haddn : env.em_add ≠ EM_ERROR_NULL)
    (haddd : env.em_add ≠ EM_ERROR_DESCRIPTOR_NULL)
    (hres : event_timer_create env w em timerAddr t0 cb d = Outcome.ok (r, w1, t1))
    (hfail : r ≠ EM_SUCCESS) :
    w1.openFds = w.openFds ∧ w1.registered = w.registered := by
  by_cases hem : em = 0
  · simp [event_timer_create, hem] at hres
    obtain ⟨-, hw, -⟩ := hres
    subst hw
    exact ⟨rfl, rfl⟩
  by_cases hta : timerAddr = 0
  · simp [event_timer_create, hem, hta] at hres
    obtain ⟨-, hw, -⟩ := hres
    subst hw
    exact ⟨rfl, rfl⟩
  by_cases hcb : cb = 0
  · simp [event_timer_create, hem, hta, hcb] at hres
    obtain ⟨-, hw, -⟩ := hres
    subst hw
    exact ⟨rfl, rfl⟩
  rcases hc : env.tfd_create with e | fd
  · simp [event_timer_create, hem, hta, hcb, hc] at hres
    obtain ⟨-, hw, -⟩ := hres
    subst hw
    exact ⟨rfl, rfl⟩
  obtain ⟨hfd0, hfo, hfr⟩ := hfresh fd hc
  have hnlt : ¬ fd < 0 := not_lt.mpr hfd0
  by_cases hadd : env.em_add = EM_SUCCESS
  · simp [event_timer_create, event_machine_add, hem, hta, hcb, hc, hadd] at hres
    exact absurd hres.1.symm hfail
  rcases hclose : env.close_fd fd with u | e2
  all_goals (
    simp [event_timer_create, event_machine_add, close_sys, hem, hta, hcb,
      hc, hadd, haddn, haddd, hclose, hnlt] at hres
    obtain ⟨-, hw, -⟩ := hres
    subst hw
    refine ⟨?_, ?_⟩
    · simpa using filter_ne_of_not_mem fd w.openFds hfo
    · simpa using filter_ne_of_not_mem fd w.registered hfr)

/-- Claim C2 witness: instantiation of the amended atomicity theorem at a
concrete failing allocation. -/
theorem c2_create_failure_no_kernel_resource_witness :
    ({ w0 with errno := 24 } : World).openFds = w0.openFds ∧
    ({ w0 with errno := 24 } : World).registered = w0.registered :=
  c2_create_failure_no_kernel_resource env_badfd w0 3 4 t_uninit 7 9
    EM_ERROR_BADFD { w0 with errno := 24 }
    { t_uninit with event_machine := 3, data := 9, callback := 7 }
    (by intro fd hfd; simp [env_badfd, env_ok] at hfd)
    (by decide) (by decide) (by decide) (by decide)

/-- Claim C4: when reactor registration fails inside event_timer_create
after the kernel timer was allocated, the just-allocated handle is closed
(any close error suppressed), the Timer storage is wiped to the safe
uninitialized shape (the shred result: zeroed with fd = -1), errno as
captured right after the failed registration is restored before
returning, and the registration failure status is the value returned. -/
theorem c4_create_registration_failure_cleanup
    (env : Env) (w : World) (em timerAddr : Ptr) (t0 : Event_timer) (cb d : Ptr)
    (fd : Int)
    (hem : em ≠ 0) (hta : timerAddr ≠ 0) (hcb : cb ≠ 0)
    (hc : env.tfd_create = Except.ok fd) (hfd0 : 0 ≤ fd)
    (hfo : fd ∉ w.openFds) (hfr : fd ∉ w.registered)
    (hadd : env.em_add ≠ EM_SUCCESS)
    (haddn : env.em_add ≠ EM_ERROR_NULL)
    (haddd : env.em_add ≠ EM_ERROR_DESCRIPTOR_NULL) :
    event_timer_create env w em timerAddr t0 cb d =
      Outcome.ok (env.em_add, { w with errno := env.em_add_errno }, shred t0) := by
  have hnlt : ¬ fd < 0 := not_lt.mpr hfd0
  rcases hclose : env.close_fd fd with u | e2 <;>
  · simp [event_timer_create, event_machine_add, close_sys, hem, hta, hcb, hc,
      hadd, haddn, haddd, hclose, hnlt, shred]
    constructor
    · simpa using filter_ne_of_not_mem fd w.openFds hfo
    · simpa using filter_ne_of_not_mem fd w.registered hfr

/-- Claim C4 witness: instantiation at a concrete registration failure. -/
theorem c4_create_registration_failure_cleanup_witness :
    event_timer_create env_addfail w0 3 4 t_uninit 7 9 =
      Outcome.ok (EM_ERROR_OTHER 2, { w0 with errno := 13 }, shred t_uninit) :=
  c4_create_registration_failure_cleanup env_addfail w0 3 4 t_uninit 7 9 5
    (by decide) (by decide) (by decide) rfl (by decide) (by decide) (by decide)
    (by decide) (by decide) (by decide)

/-- Claim C5: for every invocation of the dispatch handler with valid
reactor and descriptor arguments, an 8-byte read reporting n elapsed
intervals makes the handler invoke the user callback exactly n times, in
order, each invocation passing the Timer recovered from the descriptor's
opaque data and that Timer's stored user data, before the handler
returns; a would-block read (EAGAIN) makes it return immediately with
zero invocations and no error. -/
theorem c5_handler_dispatch
    (w : World) (em : Ptr) (events : Nat) (fd : Int) (n : Nat) (t : Event_timer)
    (hem : em ≠ 0) (hfd : 0 ≤ fd) :
    internal_timeout_handler w em events fd (ReadResult.bytes 8 n) t =
      Outcome.ok (w, List.replicate n (t, t.data)) ∧
    internal_timeout_handler w em events fd (ReadResult.fail EAGAIN) t =
      Outcome.ok ({ w with errno := EAGAIN }, []) := by
  have hnlt : ¬ fd < 0 := not_lt.mpr hfd
  constructor
  · simp [internal_timeout_handler, hem, hnlt]
  · simp [internal_timeout_handler, hem, hnlt]

/-- Claim C5 witness: instantiation at a concrete three-interval read and
a concrete would-block read. -/
theorem c5_handler_dispatch_witness :
    internal_timeout_handler w0 3 1 5 (ReadResult.bytes 8 3) t_sample =
      Outcome.ok (w0, List.replicate 3 (t_sample, t_sample.data)) ∧
    internal_timeout_handler w0 3 1 5 (ReadResult.fail EAGAIN) t_sample =
      Outcome.ok ({ w0 with errno := EAGAIN }, []) :=
  c5_handler_dispatch w0 3 1 5 3 t_sample (by decide) (by decide)

/-- Claim C6: for every created Timer (non-null event machine, valid fd),
if event_timer_destroy fails to unregister from the reactor, the kernel
handle is still closed (its errno suppressed: the errno captured right
after the failed delete is restored before returning), the unregistration
error status is returned, and the Timer structure keeps its pre-call
values unwiped. -/
theorem c6_destroy_unregister_failure
    (env : Env) (w : World) (t : Event_timer)
    (hem : t.event_machine ≠ 0) (hfd : 0 ≤ t.event_descriptor.fd)
    (hdel : env.em_delete ≠ EM_SUCCESS)
    (hdn : env.em_delete ≠ EM_ERROR_NULL)
    (hdd : env.em_delete ≠ EM_ERROR_DESCRIPTOR_NULL) :
    event_timer_destroy env w (some t) =
      Outcome.ok (env.em_delete,
        { w with errno := env.em_delete_errno,
                 openFds := w.openFds.filter (fun x => x ≠ t.event_descriptor.fd),
                 registered := w.registered.filter (fun x => x ≠ t.event_descriptor.fd) },
        some t) := by
  have hnlt : ¬ t.event_descriptor.fd < 0 := not_lt.mpr hfd
  rcases hclose : env.close_fd t.event_descriptor.fd with u | e2 <;>
    simp [event_timer_destroy, event_machine_delete, close_sys, hem, hdel, hdn,
      hdd, hclose, hnlt]

/-- Claim C6 witness: instantiation at a concrete failing unregistration. -/
theorem c6_destroy_unregister_failure_witness :
    event_timer_destroy env_delfail w5 (some t_sample) =
      Outcome.ok (EM_ERROR_OTHER 3,
        { w5 with errno := 22,
                  openFds := w5.openFds.filter (fun x => x ≠ t_sample.event_descriptor.fd),
                  registered := w5.registered.filter (fun x => x ≠ t_sample.event_descriptor.fd) },
        some t_sample) :=
  c6_destroy_unregister_failure env_delfail w5 t_sample
    (by decide) (by decide) (by decide) (by decide) (by decide)

/-- Claim C7: for every created Timer whose unregistration succeeds, a
failing close makes event_timer_destroy return the distinct
EM_ERROR_CLOSE status with the structure left unwiped, while a succeeding
close makes it return EM_SUCCESS with the entire structure zeroed and the
fd set to the -1 sentinel. -/
theorem c7_destroy_close_result
    (env : Env) (w : World) (t : Event_timer) (e : Int)
    (hem : t.event_machine ≠ 0) (hfd : 0 ≤ t.event_descriptor.fd)
    (hdel : env.em_delete = EM_SUCCESS) :
    (env.close_fd t.event_descriptor.fd = Except.error e →
      event_timer_destroy env w (some t) =
        Outcome.ok (EM_ERROR_CLOSE,
          { w with errno := e,
                   openFds := w.openFds.filter (fun x => x ≠ t.event_descriptor.fd),
                   registered := w.registered.filter (fun x => x ≠ t.event_descriptor.fd) },
          some t)) ∧
    (env.close_fd t.event_descriptor.fd = Except.ok () →
      event_timer_destroy env w (some t) =
        Outcome.ok (EM_SUCCESS,
          { w with openFds := w.openFds.filter (fun x => x ≠ t.event_descriptor.fd),
                   registered := w.registered.filter (fun x => x ≠ t.event_descriptor.fd) },
          some (shred t)) ∧
      shred t = ⟨0, ⟨-1, 0, 0, 0⟩, 0, 0⟩) := by
  have hnlt : ¬ t.event_descriptor.fd < 0 := not_lt.mpr hfd
  constructor
  · intro hclose
    simp [event_timer_destroy, event_machine_delete, close_sys, hem, hdel,
      hclose, hnlt]
  · intro hclose
    refine ⟨?_, rfl⟩
    simp [event_timer_destroy, event_machine_delete, close_sys, hem, hdel,
      hclose, hnlt]

/-- Claim C7 witness: instantiation at a concrete failing close. -/
theorem c7_destroy_close_result_witness :
    event_timer_destroy env_closefail w5 (some t_sample) =
      Outcome.ok (EM_ERROR_CLOSE,
        { w5 with errno := 5,
                  openFds := w5.openFds.filter (fun x => x ≠ t_sample.event_descriptor.fd),
                  registered := w5.registered.filter (fun x => x ≠ t_sample.event_descriptor.fd) },
        some t_sample) :=
  (c7_destroy_close_result env_closefail w5 t_sample 5
    (by decide) (by decide) rfl).1 rfl

/-- Claim C8: event_timer_create validates its arguments in order — a
null event machine returns EM_ERROR_NULL (whatever the other arguments),
then a null timer returns EM_ERROR_TIMER_NULL, then a null callback
returns EM_ERROR_CALLBACK_NULL — and every such failure happens before
any side effect: the world (open fds, registrations, errno) and the
caller's Timer storage are returned unchanged. -/
theorem c8_create_null_validation
    (env : Env) (w : World) (em timerAddr : Ptr) (t0 : Event_timer) (cb d : Ptr) :
    event_timer_create env w 0 timerAddr t0 cb d =
      Outcome.ok (EM_ERROR_NULL, w, t0) ∧
    (em ≠ 0 → event_timer_create env w em 0 t0 cb d =
      Outcome.ok (EM_ERROR_TIMER_NULL, w, t0)) ∧
    (em ≠ 0 → timerAddr ≠ 0 → event_timer_create env w em timerAddr t0 0 d =
      Outcome.ok (EM_ERROR_CALLBACK_NULL, w, t0)) := by
  refine ⟨?_, fun hem => ?_, fun hem hta => ?_⟩
  · simp [event_timer_create]
  · simp [event_timer_create, hem]
  · simp [event_timer_create, hem, hta]

/-- Claim C8 witness: instantiation of the three null-argument cases. -/
theorem c8_create_null_validation_witness :
    event_timer_create env_ok w0 0 4 t_uninit 7 9 =
      Outcome.ok (EM_ERROR_NULL, w0, t_uninit) ∧
    event_timer_create env_ok w0 3 0 t_uninit 7 9 =
      Outcome.ok (EM_ERROR_TIMER_NULL, w0, t_uninit) ∧
    event_timer_create env_ok w0 3 4 t_uninit 0 9 =
      Outcome.ok (EM_ERROR_CALLBACK_NULL, w0, t_uninit) :=
  ⟨(c8_create_null_validation env_ok w0 3 4 t_uninit 7 9).1,
   (c8_create_null_validation env_ok w0 3 4 t_uninit 7 9).2.1 (by decide),
   (c8_create_null_validation env_ok w0 3 4 t_uninit 7 9).2.2 (by decide) (by decide)⟩

/-- Claim C9: for every created Timer whose kernel accepts the disarm
call, event_timer_stop returns EM_SUCCESS, leaves every field of the
Timer structure unchanged, leaves the reactor registration, open fds and
errno unchanged, records the all-zero interval as the armed interval of
the timer's fd, and is idempotent: stopping again from the resulting
state returns EM_SUCCESS as well. -/
theorem c9_stop_frame_idempotent
    (env : Env) (w : World) (t : Event_timer)
    (hfd : 0 ≤ t.event_descriptor.fd)
    (hst : env.settime t.event_descriptor.fd zero_itimerspec = Except.ok ()) :
    (event_timer_stop env w (some t)).1 = EM_SUCCESS ∧
    (event_timer_stop env w (some t)).2.2 = some t ∧
    ((event_timer_stop env w (some t)).2.1).registered = w.registered ∧
    ((event_timer_stop env w (some t)).2.1).openFds = w.openFds ∧
    ((event_timer_stop env w (some t)).2.1).errno = w.errno ∧
    ((event_timer_stop env w (some t)).2.1).armed.lookup t.event_descriptor.fd =
      some zero_itimerspec ∧
    (event_timer_stop env ((event_timer_stop env w (some t)).2.1) (some t)).1 =
      EM_SUCCESS := by
  have hnlt : ¬ t.event_descriptor.fd < 0 := not_lt.mpr hfd
  have hst2 : env.settime t.event_descriptor.fd ⟨⟨0, 0⟩, ⟨0, 0⟩⟩ =
      Except.ok () := hst
  simp [event_timer_stop, timerfd_settime_sys, hnlt, hst2, zero_itimerspec,
    List.lookup]

/-- Claim C9 witness: instantiation at a created, registered timer with a
kernel that accepts the call. -/
theorem c9_stop_frame_idempotent_witness :
    (event_timer_stop env_ok w5 (some t_sample)).1 = EM_SUCCESS ∧
    (event_timer_stop env_ok w5 (some t_sample)).2.2 = some t_sample ∧
    ((event_timer_stop env_ok w5 (some t_sample)).2.1).registered = w5.registered ∧
    ((event_timer_stop env_ok w5 (some t_sample)).2.1).openFds = w5.openFds ∧
    ((event_timer_stop env_ok w5 (some t_sample)).2.1).errno = w5.errno ∧
    ((event_timer_stop env_ok w5 (some t_sample)).2.1).armed.lookup
      t_sample.event_descriptor.fd = some zero_itimerspec ∧
    (event_timer_stop env_ok ((event_timer_stop env_ok w5 (some t_sample)).2.1)
      (some t_sample)).1 = EM_SUCCESS :=
  c9_stop_frame_idempotent env_ok w5 t_sample (by decide) rfl
